import Mathlib

/-!
Verification development for the multi-agent coding system.

This file embeds, in Lean 4, the parts of the repository that the checked
properties talk about:

* `src/core/llm_client.py` — the structured-response recovery routine
  (`_extract_json_from_response`, `parse_structured_response`), together
  with a model of Python's `json.loads` restricted to the JSON grammar
  (values are kept structurally; number lexemes are kept as written).
* `src/core/base_agent.py` — the plan/execute/review pipeline
  (`BaseOrchestrator.orchestrate`, `BaseExecutor.execute`,
  `BaseReviewer.review`, `BaseAgent.process_task`), with the external
  Model Invocation Service abstracted as an explicit behaviour record and
  Python exceptions as `Except String`.
* `src/communication/message_bus.py` — the priority message router
  (`send_message`, `send_request`, `broadcast_message`,
  `_get_next_message`), with the `uuid4` id supply determinised as a
  stream carried in the state.
* `src/communication/protocols.py` and `src/core/types.py` — the wire
  protocol helpers (`create_task_request`, `extract_task_from_message`)
  and the data model, with `datetime.isoformat`/`fromisoformat` modelled
  concretely on a calendar-tuple datetime.

Definitions are written next to the source lines they translate; theorems
about each checked property follow at the end of the file.
-/

namespace MultiAgent

/-! ## JSON values

Model of the Python objects produced by `json.loads`.  A number keeps its
source lexeme (the claims never compute with numeric values, only compare
parses structurally), an object keeps its fields in source order. -/

inductive Json where
  | null
  | bool (b : Bool)
  | num (lexeme : String)
  | str (s : String)
  | arr (elems : List Json)
  | obj (fields : List (String × Json))
deriving Repr

/-- Structural equality test for `Json` values (written by hand because the
type nests `List`). -/
def Json.beq : Json → Json → Bool
  | .null, .null => true
  | .bool a, .bool b => a == b
  | .num a, .num b => a == b
  | .str a, .str b => a == b
  | .arr a, .arr b => beqList a b
  | .obj a, .obj b => beqFields a b
  | _, _ => false
where
  beqList : List Json → List Json → Bool
    | [], [] => true
    | a :: as', b :: bs => beq a b && beqList as' bs
    | _, _ => false
  beqFields : List (String × Json) → List (String × Json) → Bool
    | [], [] => true
    | (k, v) :: as', (k', v') :: bs => k == k' && beq v v' && beqFields as' bs
    | _, _ => false

mutual

theorem Json.beq_iff : ∀ a b : Json, Json.beq a b = true ↔ a = b
  | .null, .null => by simp [Json.beq]
  | .bool _, .bool _ => by simp [Json.beq]
  | .num _, .num _ => by simp [Json.beq]
  | .str _, .str _ => by simp [Json.beq]
  | .arr a, .arr b => by simp [Json.beq, Json.beqList_iff a b]
  | .obj a, .obj b => by simp [Json.beq, Json.beqFields_iff a b]
  | .null, .bool _ | .null, .num _ | .null, .str _ | .null, .arr _ | .null, .obj _
  | .bool _, .null | .bool _, .num _ | .bool _, .str _ | .bool _, .arr _ | .bool _, .obj _
  | .num _, .null | .num _, .bool _ | .num _, .str _ | .num _, .arr _ | .num _, .obj _
  | .str _, .null | .str _, .bool _ | .str _, .num _ | .str _, .arr _ | .str _, .obj _
  | .arr _, .null | .arr _, .bool _ | .arr _, .num _ | .arr _, .str _ | .arr _, .obj _
  | .obj _, .null | .obj _, .bool _ | .obj _, .num _ | .obj _, .str _ | .obj _, .arr _ => by
    simp [Json.beq]

theorem Json.beqList_iff : ∀ xs ys : List Json, Json.beq.beqList xs ys = true ↔ xs = ys
  | [], [] => by simp [Json.beq.beqList]
  | x :: xs, y :: ys => by
    simp [Json.beq.beqList, Json.beq_iff x y, Json.beqList_iff xs ys]
  | [], _ :: _ => by simp [Json.beq.beqList]
  | _ :: _, [] => by simp [Json.beq.beqList]

theorem Json.beqFields_iff :
    ∀ xs ys : List (String × Json), Json.beq.beqFields xs ys = true ↔ xs = ys
  | [], [] => by simp [Json.beq.beqFields]
  | (k, v) :: xs, (k', v') :: ys => by
    simp [Json.beq.beqFields, Json.beq_iff v v', Json.beqFields_iff xs ys, and_assoc]
  | [], _ :: _ => by simp [Json.beq.beqFields]
  | _ :: _, [] => by simp [Json.beq.beqFields]

end

instance : DecidableEq Json := fun a b =>
  decidable_of_iff (Json.beq a b = true) (Json.beq_iff a b)

/-- Is this value a Python dict (`Json.obj`)?  Used to state that the
recovery routine's declared `Dict` return type can be violated. -/
def Json.isObj : Json → Bool
  | .obj _ => true
  | _ => false

/-! ## A model of Python `json.loads`

Recursive-descent parser over `List Char`, with a fuel argument for
termination.  It follows the JSON grammar that CPython's `json` module
accepts by default: the six value forms, `-?(0|[1-9][0-9]*)(.[0-9]+)?`
`([eE][+-]?[0-9]+)?` numbers plus the `NaN`/`Infinity`/`-Infinity`
constants, string escapes `\" \\ \/ \b \f \n \r \t \uXXXX`, and the four
JSON whitespace characters between tokens.  `json_loads` succeeds only if
the whole input is one value surrounded by whitespace, as `json.loads`
does (anything else raises `JSONDecodeError`, modelled as `none`). -/

/-- The four whitespace characters JSON allows between tokens. -/
def jsonWs (c : Char) : Bool :=
  c = ' ' || c = '\t' || c = '\n' || c = '\r'

/-- Drop leading JSON whitespace. -/
def skipWs : List Char → List Char
  | [] => []
  | c :: cs => if jsonWs c then skipWs cs else c :: cs

/-- Decimal digit test. -/
def isDigitCh (c : Char) : Bool := '0' ≤ c && c ≤ '9'

/-- Hexadecimal digit test (for `\uXXXX` escapes). -/
def isHexCh (c : Char) : Bool :=
  isDigitCh c || ('a' ≤ c && c ≤ 'f') || ('A' ≤ c && c ≤ 'F')

/-- Numeric value of a hex digit. -/
def hexVal (c : Char) : Nat :=
  if isDigitCh c then c.toNat - 48
  else if 'a' ≤ c && c ≤ 'f' then c.toNat - 87
  else c.toNat - 55

/-- Take the longest prefix of decimal digits, returning it and the rest. -/
def spanDigits : List Char → List Char × List Char
  | [] => ([], [])
  | c :: cs =>
    if isDigitCh c then
      let (ds, rest) := spanDigits cs
      (c :: ds, rest)
    else ([], c :: cs)

/-- Parse the body of a JSON string literal (the opening quote already
consumed), handling the escape sequences `json.loads` accepts and
rejecting raw control characters. -/
def parseStringBody : List Char → List Char → Option (String × List Char)
  | acc, '"' :: rest => some (String.mk acc.reverse, rest)
  | acc, '\\' :: e :: rest =>
    match e with
    | '"' => parseStringBody ('"' :: acc) rest
    | '\\' => parseStringBody ('\\' :: acc) rest
    | '/' => parseStringBody ('/' :: acc) rest
    | 'b' => parseStringBody ('\x08' :: acc) rest
    | 'f' => parseStringBody ('\x0c' :: acc) rest
    | 'n' => parseStringBody ('\n' :: acc) rest
    | 'r' => parseStringBody ('\r' :: acc) rest
    | 't' => parseStringBody ('\t' :: acc) rest
    | 'u' =>
      match rest with
      | h1 :: h2 :: h3 :: h4 :: rest' =>
        if isHexCh h1 && isHexCh h2 && isHexCh h3 && isHexCh h4 then
          let n := ((hexVal h1 * 16 + hexVal h2) * 16 + hexVal h3) * 16 + hexVal h4
          parseStringBody (Char.ofNat n :: acc) rest'
        else none
      | _ => none
    | _ => none
  | acc, c :: rest =>
    if c.toNat < 32 then none else parseStringBody (c :: acc) rest
  | _, [] => none

/-- Lex a JSON number starting at the head of the input, returning its
lexeme; follows the `json` module's regex
`-?(0|[1-9][0-9]*)([.][0-9]+)?([eE][+-]?[0-9]+)?`. -/
def lexNumber (cs : List Char) : Option (List Char × List Char) := do
  let (sign, cs₁) := match cs with
    | '-' :: rest => ([('-' : Char)], rest)
    | _ => ([], cs)
  let (ip, cs₂) ← (do
    match cs₁ with
    | '0' :: rest => some ([('0' : Char)], rest)
    | c :: _ =>
      if isDigitCh c && c ≠ '0' then
        let (ds, rest) := spanDigits cs₁
        some (ds, rest)
      else none
    | [] => none)
  let (fp, cs₃) := match cs₂ with
    | '.' :: rest =>
      match spanDigits rest with
      | ([], _) => ([], cs₂)
      | (ds, rest') => ('.' :: ds, rest')
    | _ => ([], cs₂)
  let (ep, cs₄) := match cs₃ with
    | e :: rest =>
      if e = 'e' || e = 'E' then
        let (sgn, rest') := match rest with
          | '+' :: r => ([('+' : Char)], r)
          | '-' :: r => ([('-' : Char)], r)
          | _ => ([], rest)
        match spanDigits rest' with
        | ([], _) => ([], cs₃)
        | (ds, rest'') => (e :: (sgn ++ ds), rest'')
      else ([], cs₃)
    | [] => ([], cs₃)
  some (sign ++ ip ++ fp ++ ep, cs₄)

mutual

/-- Parse one JSON value (leading whitespace allowed). -/
def parseValue : Nat → List Char → Option (Json × List Char)
  | 0, _ => none
  | fuel + 1, cs =>
    match skipWs cs with
    | 'n' :: 'u' :: 'l' :: 'l' :: rest => some (.null, rest)
    | 't' :: 'r' :: 'u' :: 'e' :: rest => some (.bool true, rest)
    | 'f' :: 'a' :: 'l' :: 's' :: 'e' :: rest => some (.bool false, rest)
    | 'N' :: 'a' :: 'N' :: rest => some (.num "NaN", rest)
    | 'I' :: 'n' :: 'f' :: 'i' :: 'n' :: 'i' :: 't' :: 'y' :: rest =>
      some (.num "Infinity", rest)
    | '-' :: 'I' :: 'n' :: 'f' :: 'i' :: 'n' :: 'i' :: 't' :: 'y' :: rest =>
      some (.num "-Infinity", rest)
    | '"' :: rest => do
      let (s, rest') ← parseStringBody [] rest
      some (.str s, rest')
    | '[' :: rest =>
      match skipWs rest with
      | ']' :: rest' => some (.arr [], rest')
      | other => parseElems fuel other []
    | '{' :: rest =>
      match skipWs rest with
      | '}' :: rest' => some (.obj [], rest')
      | other => parseMembers fuel other []
    | other => do
      let (lex, rest) ← lexNumber other
      some (.num (String.mk lex), rest)

/-- Parse the comma-separated elements of an array (after `[`). -/
def parseElems : Nat → List Char → List Json → Option (Json × List Char)
  | 0, _, _ => none
  | fuel + 1, cs, acc => do
    let (v, rest) ← parseValue fuel cs
    match skipWs rest with
    | ',' :: rest' => parseElems fuel rest' (acc ++ [v])
    | ']' :: rest' => some (.arr (acc ++ [v]), rest')
    | _ => none

/-- Parse the comma-separated members of an object (after `{`). -/
def parseMembers : Nat → List Char → List (String × Json) → Option (Json × List Char)
  | 0, _, _ => none
  | fuel + 1, cs, acc =>
    match skipWs cs with
    | '"' :: rest => do
      let (k, rest₁) ← parseStringBody [] rest
      match skipWs rest₁ with
      | ':' :: rest₂ => do
        let (v, rest₃) ← parseValue fuel rest₂
        match skipWs rest₃ with
        | ',' :: rest₄ => parseMembers fuel rest₄ (acc ++ [(k, v)])
        | '}' :: rest₄ => some (.obj (acc ++ [(k, v)]), rest₄)
        | _ => none
      | _ => none
    | _ => none

end

/-- Model of `json.loads` on a character list: one JSON value, possibly
surrounded by whitespace, and nothing else; `none` models
`JSONDecodeError`. -/
def json_loads (cs : List Char) : Option Json :=
  match parseValue (cs.length + 1) cs with
  | some (v, rest) => if skipWs rest = [] then some v else none
  | none => none

/-! ## Structured response recovery
Translation of `LLMClient._extract_json_from_response` and
`LLMClient.parse_structured_response` from `src/core/llm_client.py`. -/

/-- Python `str.strip()` whitespace test. -/
def pyWs (c : Char) : Bool :=
  c = ' ' || c = '\t' || c = '\n' || c = '\r' || c = '\x0b' || c = '\x0c'

/-- Python `str.strip()`: drop leading and trailing whitespace. -/
def pyStrip (cs : List Char) : List Char :=
  ((cs.dropWhile pyWs).reverse.dropWhile pyWs).reverse

/-- Does `pat` occur at the head of `cs`? (helper for `str.find`). -/
def startsWith : List Char → List Char → Bool
  | [], _ => true
  | _ :: _, [] => false
  | p :: ps, c :: cs => p = c && startsWith ps cs

/-- Model of Python `str.find(pat)`: index of the first occurrence of
`pat`, `none` for `-1`. -/
def pyFind (pat : List Char) : List Char → Option Nat
  | [] => if pat = [] then some 0 else none
  | c :: cs =>
    if startsWith pat (c :: cs) then some 0
    else (pyFind pat cs).map (· + 1)

/-- Model of Python `str.find(pat, start)`. -/
def pyFindFrom (pat cs : List Char) (start : Nat) : Option Nat :=
  (pyFind pat (cs.drop start)).map (· + start)

/-- Step 2 of `_extract_json_from_response` (lines 243–253): look for a
markdown code block opened by ` ```json `, take its interior up to the
closing ` ``` `, strip it and try `json.loads`; `none` both when no fence
is found and when the fenced interior fails to parse (the Python code
`pass`es through to the brace scan in both cases). -/
def fencedStep (content : List Char) : Option Json :=
  match pyFind "```json".data content with
  | none => none
  | some i =>
    let jsonStart := i + "```json".length
    match pyFindFrom "```".data content jsonStart with
    | none => none
    | some jsonEnd =>
      json_loads (pyStrip ((content.drop jsonStart).take (jsonEnd - jsonStart)))

/-- The character-scanning loop of step 3 of `_extract_json_from_response`
(lines 259–292): a string-aware balance scan over `orig` (the suffix of
the content starting at the first `{`).  `pos` is the index of the head of
the remaining input inside `orig`; `count`, `sf`, `instr`, `esc` are the
loop's `bracket_count`, `start_found`, `in_string`, `escape_next`
variables.  When a balanced candidate fails to parse the loop resets
`bracket_count`/`start_found` and continues — and, as in the source, the
candidate slice always starts at `orig`'s head (`brace_start` is never
advanced). -/
def braceScanLoop (orig : List Char) :
    List Char → Nat → Int → Bool → Bool → Bool → Option Json
  | [], _, _, _, _, _ => none
  | c :: rest, pos, count, sf, instr, esc =>
    if esc then
      braceScanLoop orig rest (pos + 1) count sf instr false
    else if c = '\\' && instr then
      braceScanLoop orig rest (pos + 1) count sf instr true
    else if c = '"' then
      braceScanLoop orig rest (pos + 1) count sf (!instr) esc
    else if !instr && c = '{' then
      braceScanLoop orig rest (pos + 1) (count + 1) true instr esc
    else if !instr && c = '}' then
      if count - 1 = 0 && sf then
        match json_loads (orig.take (pos + 1)) with
        | some j => some j
        | none => braceScanLoop orig rest (pos + 1) 0 false instr esc
      else
        braceScanLoop orig rest (pos + 1) (count - 1) sf instr esc
    else
      braceScanLoop orig rest (pos + 1) count sf instr esc

/-- Step 3 of `_extract_json_from_response` (lines 255–292): find the
first `{` and run the balance scan from there. -/
def braceStep (content : List Char) : Option Json :=
  match pyFind ['{'] content with
  | none => none
  | some braceStart =>
    let orig := content.drop braceStart
    braceScanLoop orig orig 0 0 false false false

/-- The array-scanning loop of step 4 (lines 297–312): counts `[`/`]` with
no string awareness; on a parse failure of the balanced candidate the
Python loop `break`s, so the whole step yields nothing. -/
def arrayScanLoop (orig : List Char) : List Char → Nat → Int → Bool → Option Json
  | [], _, _, _ => none
  | c :: rest, pos, count, sf =>
    if c = '[' then
      arrayScanLoop orig rest (pos + 1) (count + 1) true
    else if c = ']' then
      if count - 1 = 0 && sf then
        json_loads (orig.take (pos + 1))
      else
        arrayScanLoop orig rest (pos + 1) (count - 1) sf
    else
      arrayScanLoop orig rest (pos + 1) count sf

/-- Step 4 of `_extract_json_from_response` (lines 294–312). -/
def arrayStep (content : List Char) : Option Json :=
  match pyFind ['['] content with
  | none => none
  | some arrayStart =>
    let orig := content.drop arrayStart
    arrayScanLoop orig orig 0 0 false

/-- The degraded fallback returned when every extraction attempt fails
(line 315): `{"content": content, "parsed": False}`. -/
def fallbackResult (content : List Char) : Json :=
  .obj [("content", .str (String.mk content)), ("parsed", .bool false)]

/-- Translation of `LLMClient._extract_json_from_response`
(`src/core/llm_client.py` lines 235–315): direct parse, then fenced code
block, then the brace scan, then the array scan, then the degraded
fallback.  Total — the Python code catches every `JSONDecodeError` it can
raise. -/
def extract_json_from_response (content : List Char) : Json :=
  match json_loads content with
  | some j => j
  | none =>
    match fencedStep content with
    | some j => j
    | none =>
      match braceStep content with
      | some j => j
      | none =>
        match arrayStep content with
        | some j => j
        | none => fallbackResult content

/-- Model of the `LLMResponse` fields `parse_structured_response` reads. -/
structure LLMResponse where
  content : String
  success : Bool := true
  error : Option String := none
deriving DecidableEq, Repr

/-- Translation of `LLMClient.parse_structured_response` (lines 219–233)
for the default `expected_format = "json"`: raises `ValueError` on a
failed response, otherwise strips the content and extracts. -/
def parse_structured_response (response : LLMResponse) : Except String Json :=
  if !response.success then
    .error "Cannot parse failed response"
  else
    .ok (extract_json_from_response (pyStrip response.content.data))

/-! ## Python dict and truthiness helpers

Operations the pipeline performs on the dynamically-typed values it moves
around, with `Except String` for the exceptions they can raise. -/

/-- Dict lookup on an association list, later bindings winning, as in a
Python dict built left to right. -/
def jLookup : List (String × Json) → String → Option Json
  | [], _ => none
  | (k', v) :: rest, k =>
    match jLookup rest k with
    | some r => some r
    | none => if k' = k then some v else none

/-- Model of `x.get(k, default)`: raises `AttributeError` when `x` is not
a dict. -/
def dictGet (j : Json) (k : String) (dflt : Json) : Except String Json :=
  match j with
  | .obj kvs => .ok ((jLookup kvs k).getD dflt)
  | _ => .error "AttributeError: get"

/-- Model of `x[k]` on a dict: raises `KeyError` when the key is missing
and `TypeError` when `x` is not a dict. -/
def dictIndex (j : Json) (k : String) : Except String Json :=
  match j with
  | .obj kvs =>
    match jLookup kvs k with
    | some v => .ok v
    | none => .error ("KeyError: " ++ k)
  | _ => .error "TypeError: subscript"

/-- Model of `k in x` at the call sites where `x` is a dict. -/
def dictHasKey (j : Json) (k : String) : Except String Bool :=
  match j with
  | .obj kvs => .ok (jLookup kvs k).isSome
  | _ => .error "TypeError: in"

/-- Is the number lexeme numerically zero? (`0`, `-0.00`, `0e5`, …). -/
def numLexIsZero (lex : String) : Bool :=
  if lex = "NaN" || lex = "Infinity" || lex = "-Infinity" then false
  else
    (lex.data.takeWhile (fun c => !(c = 'e' || c = 'E'))).all
      (fun c => !isDigitCh c || c = '0')

/-- Python truthiness of a value (`if not x`). -/
def pyTruthy : Json → Bool
  | .null => false
  | .bool b => b
  | .num lex => !numLexIsZero lex
  | .str s => !s.data.isEmpty
  | .arr xs => !xs.isEmpty
  | .obj kvs => !kvs.isEmpty

/-- Model of `len(x)`: defined on strings, lists and dicts (distinct keys),
`TypeError` otherwise. -/
def pyLen (j : Json) : Except String Nat :=
  match j with
  | .str s => .ok s.length
  | .arr xs => .ok xs.length
  | .obj kvs => .ok (kvs.map Prod.fst).dedup.length
  | _ => .error "TypeError: len"

/-! ## Core data types (`src/core/types.py`)

Timestamps are modelled two ways: `Task.created_at`/`deadline` carry a
calendar-tuple `PyDateTime` because the wire protocol serialises them
through `isoformat`/`fromisoformat`; `Message.timestamp` is an opaque
clock tick (`Nat`) because nothing ever computes with it. -/

inductive TaskPriority where
  | critical | high | medium | low
deriving DecidableEq, Repr

/-- The `.value` string of each `TaskPriority` member. -/
def TaskPriority.value : TaskPriority → String
  | .critical => "critical"
  | .high => "high"
  | .medium => "medium"
  | .low => "low"

/-- Model of the `TaskPriority(value)` enum constructor: `none` models the
`ValueError` raised on an unknown value. -/
def TaskPriority.ofValue (s : String) : Option TaskPriority :=
  if s = "critical" then some .critical
  else if s = "high" then some .high
  else if s = "medium" then some .medium
  else if s = "low" then some .low
  else none

inductive AgentRole where
  | domain_advisor | solution_architect | software_architect
  | frontend_coder | backend_coder | infrastructure_coder
  | testing_agent | quality_reviewer | master_orchestrator
deriving DecidableEq, Repr

/-- The `.value` string of each `AgentRole` member. -/
def AgentRole.value : AgentRole → String
  | .domain_advisor => "domain_advisor"
  | .solution_architect => "solution_architect"
  | .software_architect => "software_architect"
  | .frontend_coder => "frontend_coder"
  | .backend_coder => "backend_coder"
  | .infrastructure_coder => "infrastructure_coder"
  | .testing_agent => "testing_agent"
  | .quality_reviewer => "quality_reviewer"
  | .master_orchestrator => "master_orchestrator"

/-- Model of the `AgentRole(value)` enum constructor. -/
def AgentRole.ofValue (s : String) : Option AgentRole :=
  if s = "domain_advisor" then some .domain_advisor
  else if s = "solution_architect" then some .solution_architect
  else if s = "software_architect" then some .software_architect
  else if s = "frontend_coder" then some .frontend_coder
  else if s = "backend_coder" then some .backend_coder
  else if s = "infrastructure_coder" then some .infrastructure_coder
  else if s = "testing_agent" then some .testing_agent
  else if s = "quality_reviewer" then some .quality_reviewer
  else if s = "master_orchestrator" then some .master_orchestrator
  else none

inductive MessageType where
  | task_request | task_response | status_update
  | error_report | collaboration_request | workflow_control
deriving DecidableEq, Repr

/-- Calendar-tuple model of a Python `datetime` (naive, no timezone — the
repository only ever uses `datetime.now()`). -/
structure PyDateTime where
  year : Nat
  month : Nat
  day : Nat
  hour : Nat := 0
  minute : Nat := 0
  second : Nat := 0
  microsecond : Nat := 0
deriving DecidableEq, Repr

/-- The field bounds the `datetime` constructor enforces (day bound relaxed
to 31; the month-specific bound only tightens the hypothesis). -/
def PyDateTime.valid (d : PyDateTime) : Prop :=
  1 ≤ d.year ∧ d.year ≤ 9999 ∧ 1 ≤ d.month ∧ d.month ≤ 12 ∧
    1 ≤ d.day ∧ d.day ≤ 31 ∧ d.hour ≤ 23 ∧ d.minute ≤ 59 ∧
    d.second ≤ 59 ∧ d.microsecond ≤ 999999

instance (d : PyDateTime) : Decidable d.valid := by
  unfold PyDateTime.valid; infer_instance

/-- The decimal digit character for `d < 10`. -/
def digitChar (d : Nat) : Char := Char.ofNat (d + 48)

/-- Two-digit zero-padded decimal rendering (for `n < 100`). -/
def chars2 (n : Nat) : List Char := [digitChar (n / 10), digitChar (n % 10)]

/-- Four-digit zero-padded decimal rendering (for `n < 10000`). -/
def chars4 (n : Nat) : List Char :=
  [digitChar (n / 1000), digitChar (n / 100 % 10), digitChar (n / 10 % 10),
   digitChar (n % 10)]

/-- Six-digit zero-padded decimal rendering (for `n < 1000000`). -/
def chars6 (n : Nat) : List Char :=
  [digitChar (n / 100000), digitChar (n / 10000 % 10), digitChar (n / 1000 % 10),
   digitChar (n / 100 % 10), digitChar (n / 10 % 10), digitChar (n % 10)]

/-- Model of `datetime.isoformat()`: `YYYY-MM-DDTHH:MM:SS`, with
`.ffffff` appended exactly when the microsecond field is nonzero, as
CPython does. -/
def PyDateTime.isoformat (d : PyDateTime) : List Char :=
  chars4 d.year ++ ('-' :: (chars2 d.month ++ ('-' :: (chars2 d.day ++
    ('T' :: (chars2 d.hour ++ (':' :: (chars2 d.minute ++ (':' ::
      (chars2 d.second ++
        (if d.microsecond = 0 then [] else '.' :: chars6 d.microsecond)))))))))))

/-- Value of a digit character. -/
def d2n (c : Char) : Nat := c.toNat - 48

/-- Read exactly `k` decimal digits, accumulating their value. -/
def readDigits : Nat → Nat → List Char → Option (Nat × List Char)
  | 0, acc, cs => some (acc, cs)
  | k + 1, acc, c :: cs =>
    if isDigitCh c then readDigits k (10 * acc + d2n c) cs else none
  | _ + 1, _, [] => none

/-- Consume one expected separator character. -/
def expectSep (c : Char) : List Char → Option (List Char)
  | c' :: rest => if c' = c then some rest else none
  | [] => none

/-- Model of `datetime.fromisoformat` restricted to the timestamp shapes
`isoformat` emits (`YYYY-MM-DDTHH:MM:SS` with optional `.ffffff`); every
other input is modelled as the `ValueError` the callers catch. -/
def fromisoformat (cs : List Char) : Option PyDateTime := do
  let (y, cs) ← readDigits 4 0 cs
  let cs ← expectSep '-' cs
  let (mo, cs) ← readDigits 2 0 cs
  let cs ← expectSep '-' cs
  let (da, cs) ← readDigits 2 0 cs
  let cs ← expectSep 'T' cs
  let (h, cs) ← readDigits 2 0 cs
  let cs ← expectSep ':' cs
  let (mi, cs) ← readDigits 2 0 cs
  let cs ← expectSep ':' cs
  let (s, cs) ← readDigits 2 0 cs
  match cs with
  | [] => some ⟨y, mo, da, h, mi, s, 0⟩
  | '.' :: rest =>
    match readDigits 6 0 rest with
    | some (us, []) => some ⟨y, mo, da, h, mi, s, us⟩
    | _ => none
  | _ => none

/-- `Task` from `src/core/types.py` (lines 52–65).  The `task_id` and
`created_at` defaults (`uuid4()`, `datetime.now()`) are environment
effects, so the model takes them as explicit fields with no default. -/
structure Task where
  task_id : String
  title : String := ""
  description : String := ""
  requirements : List String := []
  priority : TaskPriority := .medium
  required_agent_role : Option AgentRole := none
  dependencies : List String := []
  metadata : List (String × Json) := []
  created_at : PyDateTime
  deadline : Option PyDateTime := none
  context : List (String × Json) := []
deriving DecidableEq, Repr

/-- `Message` from `src/core/types.py` (lines 92–103); `message_id` and
`timestamp` defaults (`uuid4()`, `datetime.now()`) are taken explicitly,
the timestamp as an opaque clock tick. -/
structure Message where
  message_id : String
  message_type : MessageType := .task_request
  sender : String := ""
  recipient : String := ""
  content : List (String × Json) := []
  priority : TaskPriority := .medium
  timestamp : Nat := 0
  correlation_id : Option String := none
  requires_response : Bool := false
deriving DecidableEq, Repr

/-- `ReviewResult` from `src/core/types.py` (lines 81–90).  Scores are
rationals (the Python floats in play are sums of quarters, sixths and
halves, exactly representable).  The free-form diagnostic `metadata` map
is not modelled: no checked property reads it. -/
structure ReviewResult where
  approved : Bool
  score : ℚ
  issues : List String := []
  suggestions : List String := []
  strengths : List String := []
deriving DecidableEq, Repr

/-- `AgentResponse` from `src/core/types.py` (lines 68–78).  `error` keeps
the assigned value as a Python object (`Json`), since `process_task`
assigns whatever `execution_result.get("error", ...)` holds.  The
diagnostic `metadata` map and wall-clock `execution_time` are not
modelled: no checked property reads them. -/
structure AgentResponse where
  success : Bool
  result : Json := .obj []
  error : Option Json := none
  feedback : List String := []
  confidence : ℚ := 1
  suggestions : List String := []
deriving DecidableEq, Repr

/-! ## The execution pipeline (`src/core/base_agent.py`)

The Model Invocation Service and the agent-specific abstract methods are
the pipeline's only free behaviour; an `AgentBehaviour` record fixes one
outcome for each of them, and the pipeline functions are deterministic in
it.  Python exceptions travel as `Except String`; a `try`/`except` is a
`match` on that value. -/

/-- One run's worth of outcomes for the abstract/external calls:

* `createPlan` — what the subclass `_create_execution_plan` returns, or
  the exception it raises (`.error`);
* `validationParse` — the parsed validation response, `none` when the
  validation LLM call fails or its response fails to parse (both paths
  yield the `{"valid": True, "confidence": 0.5, ...}` default);
* `revisionParse` — the parsed revision response, `none` when the
  revision call fails or fails to parse (both yield the original plan);
* `execTask` — what the subclass `_execute_task` returns or raises;
* `reviewRes` — what the subclass `_review_result` returns or raises. -/
structure AgentBehaviour where
  createPlan : Except String Json := .ok (.obj [])
  validationParse : Option Json := none
  revisionParse : Option Json := none
  execTask : Except String Json := .ok (.obj [])
  reviewRes : Except String ReviewResult := .error "not reached"

/-- `BaseOrchestrator._validate_execution_plan` (lines 76–117): the parsed
response when the call succeeds and parses, otherwise the static
`{"valid": True, "confidence": 0.5, "issues": [], "suggestions": []}`. -/
def validate_execution_plan (beh : AgentBehaviour) : Json :=
  beh.validationParse.getD
    (.obj [("valid", .bool true), ("confidence", .num "0.5"),
           ("issues", .arr []), ("suggestions", .arr [])])

/-- `BaseOrchestrator._revise_execution_plan` (lines 119–155): the parsed
revision when the call succeeds and parses, otherwise the original
plan. -/
def revise_execution_plan (beh : AgentBehaviour) (originalPlan : Json) : Json :=
  beh.revisionParse.getD originalPlan

/-- `BaseOrchestrator.orchestrate` (lines 32–69).  The `try` body: create
the plan, validate it, revise on an invalid verdict, and assemble the
orchestration dict, whose `.get` accesses raise if the plan is not a
dict; the `except` arm packages the error into
`{"execution_plan": {"error": ...}, "estimated_duration": 0,
"success": False}`. -/
def orchestrateBody (beh : AgentBehaviour) : Except String Json := do
  let plan ← beh.createPlan
  let val := validate_execution_plan beh
  let validJ ← dictIndex val "valid"
  let plan ←
    if !pyTruthy validJ then do
      let _ ← dictIndex val "issues"
      pure (revise_execution_plan beh plan)
    else
      pure plan
  let ed ← dictGet plan "estimated_duration" (.num "300")
  let rr ← dictGet plan "required_resources" (.arr [])
  let sc ← dictGet plan "success_criteria" (.arr [])
  let qg ← dictGet plan "quality_gates" (.arr [])
  pure (.obj [("execution_plan", plan), ("estimated_duration", ed),
    ("required_resources", rr), ("success_criteria", sc),
    ("quality_gates", qg)])

/-- The `except` arm of `orchestrate`, wrapping `orchestrateBody`. -/
def orchestrate (beh : AgentBehaviour) : Json :=
  match orchestrateBody beh with
  | .ok r => r
  | .error e =>
    .obj [("execution_plan", .obj [("error", .str ("Orchestration failed: " ++ e))]),
          ("estimated_duration", .num "0"), ("success", .bool false)]

/-- `BaseExecutor.execute` (lines 168–207): wrap `_execute_task` in
timing and packaging; an exception becomes a non-success dict carrying
the error.  Wall-clock `execution_time` is rendered as `0`; the metadata
sub-dict keeps only its structural fields. -/
def execute (beh : AgentBehaviour) (agent_id task_id : String)
    (execution_plan : Json) : Json :=
  match beh.execTask with
  | .ok result =>
    .obj [("result", result), ("execution_time", .num "0"),
          ("success", .bool true),
          ("metadata", .obj [("agent_id", .str agent_id),
            ("task_id", .str task_id),
            ("execution_plan_used", execution_plan)])]
  | .error e =>
    .obj [("result", .obj []), ("execution_time", .num "0"),
          ("success", .bool false), ("error", .str e),
          ("metadata", .obj [("agent_id", .str agent_id),
            ("task_id", .str task_id)])]

/-- The outcome of `BaseReviewer._perform_automated_checks`
(lines 284–300): combined score, failed-check issue strings, and the
canned suggestion. -/
structure AutoChecks where
  score : ℚ
  issues : List String
  suggestions : List String
deriving DecidableEq, Repr

/-- `BaseReviewer._perform_automated_checks` (lines 284–300): three checks
— the `result` entry is non-empty, a `success` key exists, the `error`
entry is `None` or absent — scored as the fraction that pass. -/
def perform_automated_checks (execution_result : Json) : Except String AutoChecks := do
  let resultVal ← dictGet execution_result "result" (.obj [])
  let n ← pyLen resultVal
  let has_result := decide (0 < n)
  let has_success_flag ← dictHasKey execution_result "success"
  let errVal ← dictGet execution_result "error" .null
  let no_errors := errVal = .null
  let passed : List Bool := [has_result, has_success_flag, no_errors]
  let score : ℚ := (passed.countP id : ℚ) / 3
  let issues :=
    (if has_result then [] else ["Failed check: has_result"]) ++
    (if has_success_flag then [] else ["Failed check: has_success_flag"]) ++
    (if no_errors then [] else ["Failed check: no_errors"])
  pure { score := score, issues := issues,
         suggestions := if issues.isEmpty then [] else ["Address failed automated checks"] }

/-- `BaseReviewer.review` (lines 226–276): run the subclass review and the
automated checks, average the two scores, merge issue and suggestion
lists, and approve only when the subclass approved *and* the merged issue
list is empty; any exception yields the canned rejected result. -/
def review (beh : AgentBehaviour) (execution_result : Json) : ReviewResult :=
  let body : Except String ReviewResult := do
    let rr ← beh.reviewRes
    let auto ← perform_automated_checks execution_result
    let final_score := (rr.score + auto.score) / 2
    let all_issues := rr.issues ++ auto.issues
    pure { approved := rr.approved && all_issues.isEmpty,
           score := final_score,
           issues := all_issues,
           suggestions := rr.suggestions ++ auto.suggestions,
           strengths := rr.strengths }
  match body with
  | .ok r => r
  | .error e =>
    { approved := false, score := 0,
      issues := ["Review process failed: " ++ e],
      suggestions := ["Retry the review process"], strengths := [] }

/-- The `try` body of `BaseAgent.process_task` (lines 348–406):
orchestrate, abort when no plan, execute, abort on failure, review,
assemble the final response.  Uncaught exceptions propagate as
`.error`. -/
def processTaskBody (beh : AgentBehaviour) (agent_id : String) (task : Task) :
    Except String AgentResponse := do
  let orchestration_result := orchestrate beh
  let planJ ← dictGet orchestration_result "execution_plan" .null
  if !pyTruthy planJ then
    pure { success := false,
           error := some (.str "Orchestration failed to create execution plan") }
  else
    let execution_result := execute beh agent_id task.task_id planJ
    let successJ ← dictGet execution_result "success" (.bool false)
    if !pyTruthy successJ then do
      let errJ ← dictGet execution_result "error" (.str "Execution failed")
      pure { success := false, error := some errJ }
    else do
      let review_result := review beh execution_result
      let resJ ← dictGet execution_result "result" (.obj [])
      pure { success := review_result.approved,
             result := resJ,
             error := if review_result.approved then none
                      else some (.str "Quality review failed"),
             feedback := review_result.issues ++ review_result.suggestions,
             confidence := review_result.score,
             suggestions := review_result.suggestions }

/-- `BaseAgent.process_task` (lines 337–417): the body above under the
outer `try`/`except` that converts any escaped exception into a failed
`AgentResponse`. -/
def process_task (beh : AgentBehaviour) (agent_id : String) (task : Task) :
    AgentResponse :=
  match processTaskBody beh agent_id task with
  | .ok r => r
  | .error e =>
    { success := false, error := some (.str ("Agent processing failed: " ++ e)) }

/-! ## The message router (`src/communication/message_bus.py`)

Deterministic state model of `MessageBus`.  The `uuid4` id supply is
determinised into a stream `uuid_seq` with a cursor `uuid_next`;
`datetime.now()` is an opaque clock tick.  The `defaultdict` of queues is
an association list read through a total lookup with the empty default,
which is observationally the same as materialise-on-access.  Handler
callables and `asyncio` futures live outside the state: a waiter's fate
is an explicit `AwaitOutcome`, and the pending-response table keeps only
its keys (the claims inspect membership, never the futures). -/

/-- The four per-recipient priority queues. -/
structure PriorityQueues where
  critical : List Message := []
  high : List Message := []
  medium : List Message := []
  low : List Message := []
deriving DecidableEq, Repr

/-- The queue for one priority. -/
def PriorityQueues.queue (q : PriorityQueues) : TaskPriority → List Message
  | .critical => q.critical
  | .high => q.high
  | .medium => q.medium
  | .low => q.low

/-- Total number of queued messages across the four queues. -/
def PriorityQueues.total (q : PriorityQueues) : Nat :=
  q.critical.length + q.high.length + q.medium.length + q.low.length

/-- Append a message to the queue matching `p`. -/
def PriorityQueues.push (q : PriorityQueues) (p : TaskPriority) (m : Message) :
    PriorityQueues :=
  match p with
  | .critical => { q with critical := q.critical ++ [m] }
  | .high => { q with high := q.high ++ [m] }
  | .medium => { q with medium := q.medium ++ [m] }
  | .low => { q with low := q.low ++ [m] }

/-- One record of the bounded message-history deque. -/
structure HistEntry where
  message_id : String
  sender : String
  recipient : String
  message_type : MessageType
  priority : TaskPriority
  timestamp : Nat
  status : String
deriving DecidableEq, Repr

/-- Replace the binding of `k` (or append one) in an association list. -/
def upsert {α : Type} : List (String × α) → String → α → List (String × α)
  | [], k, v => [(k, v)]
  | (k', v') :: rest, k, v =>
    if k' = k then (k, v) :: rest else (k', v') :: upsert rest k v

/-- The `MessageBus` state (`__init__`, lines 25–62), minus the
float-valued `average_delivery_time` aggregate, which no checked property
reads. -/
structure BusState where
  max_queue_size : Nat := 1000
  message_retention : Nat := 10000
  message_queues : List (String × PriorityQueues) := []
  agents : List String := []
  message_history : List HistEntry := []
  pending_responses : List String := []
  messages_sent : Nat := 0
  messages_delivered : Nat := 0
  messages_failed : Nat := 0
  queue_sizes : List (String × Nat) := []
  running : Bool := false
  uuid_seq : Nat → String := fun _ => ""
  uuid_next : Nat := 0
  clock : Nat := 0

/-- Queues of a recipient; the `defaultdict` default is four empty
queues. -/
def getQueues (st : BusState) (agent_id : String) : PriorityQueues :=
  match jAssoc st.message_queues agent_id with
  | some q => q
  | none => {}
where
  jAssoc {α : Type} : List (String × α) → String → Option α
    | [], _ => none
    | (k, v) :: rest, k' => if k = k' then some v else jAssoc rest k'

/-- Store a recipient's queues. -/
def setQueues (st : BusState) (agent_id : String) (q : PriorityQueues) : BusState :=
  { st with message_queues := upsert st.message_queues agent_id q }

/-- Append to the bounded history deque (`maxlen = message_retention`:
the oldest entries fall off the left). -/
def pushHistory (st : BusState) (e : HistEntry) : List HistEntry :=
  let h := st.message_history ++ [e]
  if st.message_retention < h.length then h.drop (h.length - st.message_retention) else h

/-- Draw the next fresh uuid from the determinised supply. -/
def genId (st : BusState) : String × BusState :=
  (st.uuid_seq st.uuid_next, { st with uuid_next := st.uuid_next + 1 })

/-- `MessageBus.send_message` (lines 108–149): refuse when stopped, when
the recipient is unregistered, or when the recipient's total queued count
has reached `max_queue_size`; otherwise append to the matching priority
queue, record a `"queued"` history entry and update the counters. -/
def send_message (st : BusState) (message : Message) : Bool × BusState :=
  if !st.running then (false, st)
  else if !st.agents.contains message.recipient then (false, st)
  else
    let total_queued := (getQueues st message.recipient).total
    if st.max_queue_size ≤ total_queued then (false, st)
    else
      let st' := setQueues st message.recipient
        ((getQueues st message.recipient).push message.priority message)
      (true,
        { st' with
          message_history := pushHistory st'
            { message_id := message.message_id, sender := message.sender,
              recipient := message.recipient,
              message_type := message.message_type,
              priority := message.priority, timestamp := message.timestamp,
              status := "queued" },
          messages_sent := st'.messages_sent + 1,
          queue_sizes := upsert st'.queue_sizes message.recipient (total_queued + 1) })

/-- How the caller's wait on the pending-response future resolves: the
delivery loop fulfils it in time, or `asyncio.wait_for` times out. -/
inductive AwaitOutcome where
  | fulfilled (response : Message)
  | timedOut
deriving DecidableEq, Repr

/-- Register a pending-response slot (`pending_responses[id] = future`). -/
def addPending (st : BusState) (id : String) : BusState :=
  { st with pending_responses := id :: st.pending_responses.filter (· ≠ id) }

/-- Drop a pending-response slot (`del pending_responses[id]`, guarded by
an `in` check in the source). -/
def removePending (st : BusState) (id : String) : BusState :=
  { st with pending_responses := st.pending_responses.filter (· ≠ id) }

/-- `MessageBus.send_request` (lines 151–179): force
`requires_response = True`, register the pending slot, send; on a failed
send drop the slot and answer `None`; otherwise await (`outcome` says
how the wait resolves), answering the response or — on timeout — `None`;
the `finally` clause drops the slot on every path. -/
def send_request (st : BusState) (message : Message) (outcome : AwaitOutcome) :
    Option Message × BusState :=
  let message := { message with requires_response := true }
  let st₁ := addPending st message.message_id
  let (sent, st₂) := send_message st₁ message
  if !sent then (none, removePending st₂ message.message_id)
  else
    match outcome with
    | .fulfilled response => (some response, removePending st₂ message.message_id)
    | .timedOut => (none, removePending st₂ message.message_id)

/-- The per-recipient copy `broadcast_message` constructs (lines 194–201):
all fields of the original except a fresh recipient, while `message_id`,
`timestamp` and `requires_response` fall back to the dataclass defaults —
a fresh `uuid4`, `now()`, and `False`. -/
def broadcastCopy (message : Message) (agent_id fresh : String) (now : Nat) : Message :=
  { message_id := fresh, message_type := message.message_type,
    sender := message.sender, recipient := agent_id,
    content := message.content, priority := message.priority,
    timestamp := now, correlation_id := message.correlation_id,
    requires_response := false }

/-- The loop of `broadcast_message` over the recipients that pass the
exclusion filter; returns the success count, the final state, and — as a
ghost output for the theorems — the list of copies constructed. -/
def broadcastLoop (msg : Message) : List String → BusState →
    Nat × BusState × List Message
  | [], st => (0, st, [])
  | agent_id :: rest, st =>
    let (fresh, st₁) := genId st
    let c := broadcastCopy msg agent_id fresh st₁.clock
    let (ok, st₂) := send_message st₁ c
    let (n, st₃, cs) := broadcastLoop msg rest st₂
    ((if ok then 1 else 0) + n, st₃, c :: cs)

/-- `MessageBus.broadcast_message` (lines 181–207): send an independent
copy to every registered agent that is neither the sender nor excluded;
count the successful sends. -/
def broadcast_message (st : BusState) (message : Message) (exclude : List String) :
    Nat × BusState × List Message :=
  broadcastLoop message
    (st.agents.filter (fun a => !exclude.contains a && a != message.sender)) st

/-- `MessageBus._get_next_message` (lines 231–241): pop the head of the
first non-empty queue in the order CRITICAL, HIGH, MEDIUM, LOW. -/
def get_next_message (st : BusState) (agent_id : String) :
    Option Message × BusState :=
  let q := getQueues st agent_id
  match q.critical with
  | m :: rest => (some m, setQueues st agent_id { q with critical := rest })
  | [] =>
    match q.high with
    | m :: rest => (some m, setQueues st agent_id { q with high := rest })
    | [] =>
      match q.medium with
      | m :: rest => (some m, setQueues st agent_id { q with medium := rest })
      | [] =>
        match q.low with
        | m :: rest => (some m, setQueues st agent_id { q with low := rest })
        | [] => (none, st)

/-- The guard under which `_deliver_message` (lines 257 and 290) touches a
pending-response future at all — fulfilling it on handler success or
rejecting it on handler failure: the delivered message must carry
`requires_response` and its own id must key a pending slot. -/
def deliverFulfils (st : BusState) (message : Message) : Bool :=
  message.requires_response && st.pending_responses.contains message.message_id

/-! ## Wire protocol helpers (`src/communication/protocols.py`)

`create_task_request` serialises a `Task` into the nested content dict of
a task-request message; `extract_task_from_message` parses it back.  The
extraction reads dynamically-typed dict entries into typed `Task` fields;
the model coerces through the `Json` constructors the serialiser emits
and treats any other shape as the extraction failing (`none`), matching
the blanket `except` that returns `None`. -/

/-- Coerce a wire value to a string field. -/
def asStr : Json → Option String
  | .str s => some s
  | _ => none

/-- Coerce a wire value to a list of strings. -/
def asStrList : Json → Option (List String)
  | .arr xs => xs.mapM asStr
  | _ => none

/-- Coerce a wire value to a dict. -/
def asObj : Json → Option (List (String × Json))
  | .obj kvs => some kvs
  | _ => none

/-- `ProtocolHelper.create_task_request` (lines 23–54).  The `Message`
dataclass defaults `message_id = uuid4()` and `timestamp = now()` are
taken as the explicit arguments `fresh_id` and `now`. -/
def create_task_request (sender recipient : String) (task : Task)
    (priority : TaskPriority := .medium) (correlation_id : Option String := none)
    (fresh_id : String := "") (now : Nat := 0) : Message :=
  let content : List (String × Json) :=
    [("task", .obj [
        ("task_id", .str task.task_id),
        ("title", .str task.title),
        ("description", .str task.description),
        ("requirements", .arr (task.requirements.map .str)),
        ("priority", .str task.priority.value),
        ("required_agent_role",
          match task.required_agent_role with
          | some r => .str r.value
          | none => .null),
        ("dependencies", .arr (task.dependencies.map .str)),
        ("metadata", .obj task.metadata),
        ("context", .obj task.context),
        ("created_at", .str (String.mk task.created_at.isoformat)),
        ("deadline",
          match task.deadline with
          | some d => .str (String.mk d.isoformat)
          | none => .null)]),
     ("message_version", .str "1.0"),
     ("protocol", .str "task_request")]
  { message_id := fresh_id, message_type := .task_request, sender := sender,
    recipient := recipient, content := content, priority := priority,
    timestamp := now, correlation_id := correlation_id,
    requires_response := true }

/-- `ProtocolHelper.extract_task_from_message` (lines 173–210): `None` for
non-task-request messages; otherwise read the nested task dict back into
a `Task`, parsing the datetime and enum fields, with the whole body under
a blanket `except` that yields `None`. -/
def extract_task_from_message (message : Message) : Option Task :=
  if message.message_type ≠ .task_request then none
  else do
    let task_data := (jLookup message.content "task").getD (.obj [])
    let kvs ← asObj task_data
    let created_at_s ← (jLookup kvs "created_at").bind asStr
    let created_at ← fromisoformat created_at_s.data
    let deadlineV := (jLookup kvs "deadline").getD .null
    let deadline ←
      if pyTruthy deadlineV then do
        let s ← asStr deadlineV
        let d ← fromisoformat s.data
        pure (some d)
      else
        pure none
    let priorityV := (jLookup kvs "priority").getD (.str "medium")
    let priority ← (asStr priorityV).bind TaskPriority.ofValue
    let roleV := (jLookup kvs "required_agent_role").getD .null
    let required_agent_role ←
      if pyTruthy roleV then do
        let s ← asStr roleV
        let r ← AgentRole.ofValue s
        pure (some r)
      else
        pure none
    let task_id ← (jLookup kvs "task_id").bind asStr
    let title ← (jLookup kvs "title").bind asStr
    let description ← (jLookup kvs "description").bind asStr
    let requirements ← asStrList ((jLookup kvs "requirements").getD (.arr []))
    let dependencies ← asStrList ((jLookup kvs "dependencies").getD (.arr []))
    let metadata ← asObj ((jLookup kvs "metadata").getD (.obj []))
    let context ← asObj ((jLookup kvs "context").getD (.obj []))
    pure { task_id := task_id, title := title, description := description,
           requirements := requirements, priority := priority,
           required_agent_role := required_agent_role,
           dependencies := dependencies, metadata := metadata,
           created_at := created_at, deadline := deadline, context := context }

/-! ## Concrete fixtures used by witness instantiations -/

/-- A minimal concrete task. -/
def sampleTask : Task :=
  { task_id := "task-1", created_at := ⟨2024, 1, 1, 0, 0, 0, 0⟩ }

/-- A behaviour in which every external call fails or raises: plan
generation raises, validation and revision both fail to parse, execution
raises, review raises. -/
def behAllFail : AgentBehaviour :=
  { createPlan := .error "plan generation raised",
    validationParse := none, revisionParse := none,
    execTask := .error "execution raised",
    reviewRes := .error "review raised" }

/-- A message addressed to recipient `r`. -/
def sampleMsg : Message :=
  { message_id := "m1", sender := "s", recipient := "r", priority := .critical }

/-- A bus whose single recipient `r` is at its capacity of one queued
message. -/
def fullBus : BusState :=
  { max_queue_size := 1, agents := ["r"], running := true,
    message_queues := [("r", { low := [{ message_id := "m0", recipient := "r" }] })] }

/-- A running bus with room to queue for recipient `r`. -/
def openBus : BusState :=
  { max_queue_size := 5, agents := ["r"], running := true }

/-- A CRITICAL and a LOW message queued for recipient `r`. -/
def msgC : Message :=
  { message_id := "mc", recipient := "r", priority := .critical }

/-- See `msgC`. -/
def msgL : Message :=
  { message_id := "ml", recipient := "r", priority := .low }

/-- A bus holding `msgC` and `msgL` for recipient `r`. -/
def busCL : BusState :=
  { agents := ["r"], running := true,
    message_queues := [("r", { critical := [msgC], low := [msgL] })] }

/-- A determinised uuid supply for witnesses: `n` maps to `n + 1` copies
of `u`, so distinct indices give distinct ids. -/
def wSeq (n : Nat) : String := String.mk (List.replicate (n + 1) 'u')

/-- A running bus with two recipients and the `wSeq` uuid supply. -/
def broadcastBus : BusState :=
  { max_queue_size := 10, agents := ["r1", "r2"], running := true,
    uuid_seq := wSeq }

/-- An original message (id `a`) that requires a response. -/
def origMsg : Message :=
  { message_id := "a", sender := "s", recipient := "r1",
    requires_response := true }

/-! # Theorems

Helper lemmas first, then one theorem per checked claim (with a witness
instantiation where the theorem carries hypotheses). -/

/-- `str.find` of a single character misses exactly when the character is
absent. -/
theorem pyFind_single_eq_none (c : Char) :
    ∀ cs : List Char, c ∉ cs → pyFind [c] cs = none := by
  intro cs
  induction cs with
  | nil => intro _; rfl
  | cons x xs ih =>
    intro h
    have hx : ¬c = x := fun hc => h (hc ▸ List.mem_cons_self x xs)
    have hxs : c ∉ xs := fun hm => h (List.mem_cons_of_mem x hm)
    simp [pyFind, startsWith, ih hxs, hx]

/-! ## C1 — recovery of a later valid object after a bad first candidate -/

/-- Claim C1: the spec says that when the first brace-delimited candidate
fails to parse, the scan continues "from the next opening brace" and
recovers a later valid object.  The code resets its counters but never
advances `brace_start`, so every retry slice still starts at the first
`{` and can never parse.  At the input `{invalid} {"valid": 1}` the
second candidate `{"valid": 1}` is valid JSON, yet the routine returns
the degraded fallback. -/
theorem extract_misses_second_object :
    json_loads "\x7b\"valid\": 1\x7d".data = some (.obj [("valid", .num "1")]) ∧
      extract_json_from_response "\x7binvalid\x7d \x7b\"valid\": 1\x7d".data =
        fallbackResult "\x7binvalid\x7d \x7b\"valid\": 1\x7d".data := by
  constructor
  · rfl
  · rfl

/-! ## C7 — inputs without braces or brackets -/

/-- Claim C7 as stated is false: an input with no brace and no bracket can
still be valid JSON, in which case the direct-parse step returns it
instead of the degraded fallback.  Counterexample: `42`. -/
theorem extract_no_bracket_counterexample :
    ('{' ∉ "42".data ∧ '[' ∉ "42".data) ∧
      extract_json_from_response "42".data = Json.num "42" ∧
      extract_json_from_response "42".data ≠ fallbackResult "42".data := by
  refine ⟨by decide, rfl, by decide⟩

/-- Claim C7 amended: for input text with no opening brace and no opening
bracket that moreover fails the direct parse and has no parseable
` ```json ` fence, the recovery routine returns the degraded fallback
`{"content": <input>, "parsed": False}` (and, the model being a total
function, it returns a value on every input). -/
theorem extract_no_bracket_fallback (cs : List Char)
    (h1 : '{' ∉ cs) (h2 : '[' ∉ cs)
    (h3 : json_loads cs = none) (h4 : fencedStep cs = none) :
    extract_json_from_response cs = fallbackResult cs := by
  unfold extract_json_from_response braceStep arrayStep
  rw [h3, h4, pyFind_single_eq_none '{' cs h1, pyFind_single_eq_none '[' cs h2]

/-- Witness for C7 at the concrete input `hello world`. -/
theorem extract_no_bracket_fallback_witness :
    extract_json_from_response "hello world".data =
      fallbackResult "hello world".data :=
  extract_no_bracket_fallback "hello world".data
    (by decide) (by decide) (by rfl) (by rfl)

/-! ## C2 — what approval by `BaseReviewer.review` does and does not imply -/

/-- Claim C2 as stated is false: `review` approves whenever the subclass
review approved and the merged issue list is empty — it never checks the
combined score against 0.7 (no such threshold appears in
`BaseReviewer.review`).  A subclass review with `approved = True`,
`score = 0.0` and no issues over an execution dict that passes every
automated check yields `approved = True` with combined score `0.5`. -/
theorem review_approved_low_score :
    (review { reviewRes := .ok { approved := true, score := 0 } }
        (.obj [("result", .obj [("x", .null)]), ("success", .bool true)])).approved
      = true ∧
    (review { reviewRes := .ok { approved := true, score := 0 } }
        (.obj [("result", .obj [("x", .null)]), ("success", .bool true)])).score
      < 7 / 10 := by
  constructor
  · rfl
  · have hac : perform_automated_checks
        (.obj [("result", .obj [("x", .null)]), ("success", .bool true)]) =
        Except.ok { score := ((List.countP id [true, true, true] : ℕ) : ℚ) / 3,
                    issues := [], suggestions := [] } := rfl
    simp only [review, Bind.bind, Except.bind, hac, pure, Except.pure]
    norm_num

/-- Claim C2 amended: approval by `BaseReviewer.review` implies the merged
issue list is empty — in particular it contains no issue tagged
"critical", so a review with a critical issue never yields
`approved = true` regardless of score; the score-threshold half of the
claim does not hold (see the counterexample). -/
theorem review_approved_no_issues (beh : AgentBehaviour) (er : Json)
    (h : (review beh er).approved = true) :
    (review beh er).issues = [] := by
  unfold review at h ⊢
  rcases hrr : beh.reviewRes with e | rr <;> rw [hrr] at h <;>
    simp only [Bind.bind, Except.bind, pure, Except.pure] at h ⊢
  · simp at h
  · rcases hac : perform_automated_checks er with e' | auto <;> rw [hac] at h <;>
      simp only at h ⊢
    · simp at h
    · simp only [Bool.and_eq_true, List.isEmpty_iff] at h
      simpa using h.2

/-- Witness for C2 at a concrete approving review. -/
theorem review_approved_no_issues_witness :
    (review { reviewRes := .ok { approved := true, score := 1 } }
        (.obj [("result", .obj [("x", .null)]), ("success", .bool true)])).issues
      = [] :=
  review_approved_no_issues
    { reviewRes := .ok { approved := true, score := 1 } }
    (.obj [("result", .obj [("x", .null)]), ("success", .bool true)]) rfl

/-! ## C5 — `process_task` never lets an exception escape -/

/-- A successful `orchestrateBody` always produces a dict. -/
theorem orchestrateBody_ok_obj (beh : AgentBehaviour) (r : Json)
    (h : orchestrateBody beh = .ok r) : ∃ kvs, r = Json.obj kvs := by
  unfold orchestrateBody at h
  simp only [Bind.bind, Except.bind, pure, Except.pure] at h
  repeat' split at h
  all_goals try exact ⟨_, (Except.ok.inj h).symm⟩
  all_goals simp at h

/-- `orchestrate` always returns a dict. -/
theorem orchestrate_isObj (beh : AgentBehaviour) :
    ∃ kvs, orchestrate beh = Json.obj kvs := by
  unfold orchestrate
  rcases h : orchestrateBody beh with e | r
  · exact ⟨_, rfl⟩
  · exact orchestrateBody_ok_obj beh r h

/-- The `try` body of `process_task` resolves to a response on every
behaviour, and whenever that response reports failure it carries an
error value. -/
theorem processTaskBody_spec (beh : AgentBehaviour) (agent_id : String) (task : Task) :
    ∃ r, processTaskBody beh agent_id task = Except.ok r ∧
      (r.success = false → r.error ≠ none) := by
  obtain ⟨kvs, hk⟩ := orchestrate_isObj beh
  rcases hex : beh.execTask with e | res <;>
  · unfold processTaskBody execute
    rw [hk, hex]
    simp only [Bind.bind, Except.bind, pure, Except.pure, dictGet]
    split
    · exact ⟨_, rfl, fun _ => by simp⟩
    · refine ⟨_, rfl, fun hs => ?_⟩
      simp only at hs ⊢
      simp [hs]

/-- Claim C5: for every task and behaviour of the Model Invocation
Service — in particular whenever plan generation raises or fails to
parse and plan revision also fails — `process_task` terminates with a
well-formed `AgentResponse` (its `try` body never propagates an
exception), and an aborted phase yields `success = false` together with
a non-null error value. -/
theorem process_task_no_escape (beh : AgentBehaviour) (agent_id : String) (task : Task) :
    processTaskBody beh agent_id task = Except.ok (process_task beh agent_id task) ∧
    ((process_task beh agent_id task).success = false →
      (process_task beh agent_id task).error ≠ none) := by
  obtain ⟨r, hr, hre⟩ := processTaskBody_spec beh agent_id task
  have hp : process_task beh agent_id task = r := by
    unfold process_task
    rw [hr]
  rw [hp, hr]
  exact ⟨rfl, hre⟩

/-- Witness for C5: with plan generation raising, both parse-dependent
passes failing and execution raising, `process_task` still returns a
response, a failed one carrying an error value. -/
theorem process_task_no_escape_witness :
    (process_task behAllFail "agent-1" sampleTask).error ≠ none :=
  (process_task_no_escape behAllFail "agent-1" sampleTask).2 rfl

/-! ## C10 — the recovery routine can return a non-dict -/

/-- Claim C10: when the whole trimmed content is valid JSON whose
top-level value is a scalar or an array, the direct-parse step returns
that non-object value unchanged, so the declared `Dict` return type of
`parse_structured_response` is not guaranteed. -/
theorem extract_returns_non_dict :
    extract_json_from_response "42".data = Json.num "42" ∧
      (extract_json_from_response "42".data).isObj = false ∧
      extract_json_from_response "[1, 2]".data =
        Json.arr [.num "1", .num "2"] ∧
      (extract_json_from_response "[1, 2]".data).isObj = false := by
  refine ⟨rfl, rfl, rfl, rfl⟩

/-! ## Association-list lemmas for the router state -/

theorem jAssoc_upsert_self {α : Type} (l : List (String × α)) (k : String) (v : α) :
    getQueues.jAssoc (upsert l k v) k = some v := by
  induction l with
  | nil => simp [upsert, getQueues.jAssoc]
  | cons p rest ih =>
    rcases p with ⟨k', v'⟩
    by_cases h : k' = k <;> simp [upsert, getQueues.jAssoc, h, ih]

theorem jAssoc_upsert_other {α : Type} (l : List (String × α)) (k a : String)
    (v : α) (h : a ≠ k) :
    getQueues.jAssoc (upsert l k v) a = getQueues.jAssoc l a := by
  induction l with
  | nil => simp [upsert, getQueues.jAssoc, Ne.symm h]
  | cons p rest ih =>
    rcases p with ⟨k', v'⟩
    by_cases hk : k' = k
    · subst hk
      simp [upsert, getQueues.jAssoc, Ne.symm h]
    · simp [upsert, getQueues.jAssoc, hk, ih]

theorem getQueues_setQueues_self (st : BusState) (a : String) (q : PriorityQueues) :
    getQueues (setQueues st a q) a = q := by
  simp [getQueues, setQueues, jAssoc_upsert_self]

theorem getQueues_setQueues_other (st : BusState) (a b : String)
    (q : PriorityQueues) (h : b ≠ a) :
    getQueues (setQueues st a q) b = getQueues st b := by
  simp [getQueues, setQueues, jAssoc_upsert_other st.message_queues a b q h]

/-! ## C3 — backpressure in `send_message` -/

/-- Claim C3: once a recipient's four queues hold `max_queue_size`
messages in total, every further `send_message` to it answers `false`
and leaves every queue unchanged (the same holds on the stopped-bus and
unknown-recipient refusals); below the cap, on a running bus with a
registered recipient, `send_message` appends the message to the queue
matching its priority, answers `true`, and touches no other recipient's
queues. -/
theorem send_message_backpressure (st : BusState) (message : Message) :
    (st.max_queue_size ≤ (getQueues st message.recipient).total →
      (send_message st message).1 = false ∧
      ∀ a, getQueues (send_message st message).2 a = getQueues st a) ∧
    ((getQueues st message.recipient).total < st.max_queue_size →
      st.running = true → message.recipient ∈ st.agents →
      (send_message st message).1 = true ∧
      getQueues (send_message st message).2 message.recipient =
        (getQueues st message.recipient).push message.priority message ∧
      ∀ a, a ≠ message.recipient →
        getQueues (send_message st message).2 a = getQueues st a) := by
  constructor
  · intro hcap
    by_cases h1 : st.running
    · by_cases h2 : message.recipient ∈ st.agents
      · simp [send_message, h1, h2, hcap]
      · simp [send_message, h1, h2]
    · simp [send_message, h1]
  · intro hlt hrun hmem
    have h3 : ¬st.max_queue_size ≤ (getQueues st message.recipient).total :=
      not_le.2 hlt
    refine ⟨?_, ?_, ?_⟩
    · simp [send_message, hrun, hmem, h3]
    · simp only [send_message]
      simp [hrun, hmem, h3]
      simp [getQueues, setQueues, jAssoc_upsert_self]
    · intro a ha
      simp only [send_message]
      simp [hrun, hmem, h3]
      simp [getQueues, setQueues,
        jAssoc_upsert_other st.message_queues message.recipient a _ ha]

/-- Witness for C3: at the one-message cap a further send is refused; on
the open bus the send is accepted. -/
theorem send_message_backpressure_witness :
    (send_message fullBus sampleMsg).1 = false ∧
    (send_message openBus sampleMsg).1 = true :=
  ⟨((send_message_backpressure fullBus sampleMsg).1 (by decide)).1,
   ((send_message_backpressure openBus sampleMsg).2 (by decide) rfl
      (by decide)).1⟩

/-! ## C4 — `send_request` cleans up its pending slot -/

/-- Claim C4: after any `send_request` call, no pending-response entry
keyed by the request's message id remains — whether the send failed, the
wait timed out, or the response arrived; a timed-out call and a failed
send both answer `None` rather than raising. -/
theorem send_request_cleans_pending (st : BusState) (message : Message)
    (outcome : AwaitOutcome) :
    message.message_id ∉ (send_request st message outcome).2.pending_responses ∧
    (outcome = .timedOut → (send_request st message outcome).1 = none) ∧
    ((send_message (addPending st message.message_id)
        { message with requires_response := true }).1 = false →
      (send_request st message outcome).1 = none) := by
  unfold send_request
  rcases hs : send_message (addPending st message.message_id)
      { message with requires_response := true } with ⟨sent, st₂⟩
  rcases outcome <;> rcases sent <;>
    simp [hs, removePending, List.mem_filter]

/-- Witness for C4 on the default (stopped) bus with a timed-out wait. -/
theorem send_request_cleans_pending_witness :
    sampleMsg.message_id ∉
      (send_request {} sampleMsg .timedOut).2.pending_responses ∧
    (send_request {} sampleMsg .timedOut).1 = none :=
  ⟨(send_request_cleans_pending {} sampleMsg .timedOut).1,
   (send_request_cleans_pending {} sampleMsg .timedOut).2.1 rfl⟩

/-! ## C6 — strict priority order in the delivery loop -/

/-- Claim C6: one delivery step for a recipient pops the head of the
highest-priority non-empty queue — a non-empty CRITICAL queue is always
served (and the popped head removed), and a message of priority `p` is
never taken while a strictly higher-priority queue is non-empty. -/
theorem get_next_message_priority (st : BusState) (agent_id : String) :
    ((getQueues st agent_id).critical ≠ [] →
      (get_next_message st agent_id).1 = (getQueues st agent_id).critical.head? ∧
      getQueues (get_next_message st agent_id).2 agent_id =
        { getQueues st agent_id with
            critical := (getQueues st agent_id).critical.tail }) ∧
    ((getQueues st agent_id).critical = [] →
      (getQueues st agent_id).high ≠ [] →
      (get_next_message st agent_id).1 = (getQueues st agent_id).high.head?) ∧
    ((getQueues st agent_id).critical = [] →
      (getQueues st agent_id).high = [] →
      (getQueues st agent_id).medium ≠ [] →
      (get_next_message st agent_id).1 = (getQueues st agent_id).medium.head?) ∧
    ((getQueues st agent_id).critical = [] →
      (getQueues st agent_id).high = [] →
      (getQueues st agent_id).medium = [] →
      (getQueues st agent_id).low ≠ [] →
      (get_next_message st agent_id).1 = (getQueues st agent_id).low.head?) ∧
    ((getQueues st agent_id).critical = [] →
      (getQueues st agent_id).high = [] →
      (getQueues st agent_id).medium = [] →
      (getQueues st agent_id).low = [] →
      (get_next_message st agent_id).1 = none) := by
  unfold get_next_message
  rcases hq : getQueues st agent_id with ⟨crit, high, med, low⟩
  rcases crit with _ | ⟨mc, crit⟩ <;>
    rcases high with _ | ⟨mh, high⟩ <;>
    rcases med with _ | ⟨mm, med⟩ <;>
    rcases low with _ | ⟨ml, low⟩ <;>
    simp [getQueues_setQueues_self]

/-- Witness for C6: with one CRITICAL and one LOW message queued for
`r`, the step takes the CRITICAL one. -/
theorem get_next_message_priority_witness :
    (get_next_message busCL "r").1 = some msgC :=
  (((get_next_message_priority busCL "r").1 (by decide)).1).trans rfl

/-! ## C9 — broadcast copies carry fresh ids and cannot answer requests -/

/-- `send_message` never touches the uuid supply or the clock. -/
theorem send_message_preserves_uuid (st : BusState) (m : Message) :
    (send_message st m).2.uuid_seq = st.uuid_seq ∧
    (send_message st m).2.uuid_next = st.uuid_next ∧
    (send_message st m).2.clock = st.clock := by
  simp only [send_message]
  repeat' split
  all_goals exact ⟨rfl, rfl, rfl⟩

/-- The copies the broadcast loop constructs: their ids are the
consecutive entries of the uuid supply from the current cursor on, and
none of them requires a response. -/
theorem broadcastLoop_ids (msg : Message) :
    ∀ (l : List String) (st : BusState),
      ((broadcastLoop msg l st).2.2.map Message.message_id =
        (List.range l.length).map fun i => st.uuid_seq (st.uuid_next + i)) ∧
      ∀ c ∈ (broadcastLoop msg l st).2.2, c.requires_response = false := by
  intro l
  induction l with
  | nil => intro st; simp [broadcastLoop]
  | cons a rest ih =>
    intro st
    simp only [broadcastLoop, genId]
    rcases hsm : send_message { st with uuid_next := st.uuid_next + 1 }
        (broadcastCopy msg a (st.uuid_seq st.uuid_next)
          ({ st with uuid_next := st.uuid_next + 1 } : BusState).clock)
      with ⟨ok, st₂⟩
    obtain ⟨hseq, hnext, _⟩ := send_message_preserves_uuid
      { st with uuid_next := st.uuid_next + 1 }
      (broadcastCopy msg a (st.uuid_seq st.uuid_next)
        ({ st with uuid_next := st.uuid_next + 1 } : BusState).clock)
    rw [hsm] at hseq hnext
    obtain ⟨ihmap, ihrr⟩ := ih st₂
    rcases hbl : broadcastLoop msg rest st₂ with ⟨n, st₃, cs⟩
    rw [hbl] at ihmap ihrr
    constructor
    · simp only [List.map_cons, broadcastCopy]
      rw [ihmap, hseq, hnext]
      simp only [List.length_cons, List.range_succ_eq_map, List.map_cons,
        List.map_map, List.cons.injEq]
      refine ⟨by simp, ?_⟩
      apply List.map_congr_left
      intro i _
      simp only [Function.comp_apply]
      congr 1
      omega
    · intro c hc
      rcases List.mem_cons.1 hc with hc | hc
      · simp [hc, broadcastCopy]
      · exact ihrr c hc

/-- Claim C9: every copy `broadcast_message` constructs has
`requires_response = false` and — provided the uuid supply is injective
and avoids the original id, as `uuid4` freshness promises — an id
distinct from the original's and from every other copy's; consequently a
broadcast copy can never fulfil (or reject) a pending-response slot in
any bus state, since `_deliver_message` touches a future only for
messages with `requires_response` set. -/
theorem broadcast_copies_fresh (st : BusState) (message : Message)
    (exclude : List String)
    (hinj : Function.Injective st.uuid_seq)
    (hne : ∀ n, st.uuid_seq n ≠ message.message_id) :
    (∀ c ∈ (broadcast_message st message exclude).2.2,
      c.requires_response = false ∧ c.message_id ≠ message.message_id ∧
      ∀ st' : BusState, deliverFulfils st' c = false) ∧
    ((broadcast_message st message exclude).2.2.map Message.message_id).Nodup := by
  obtain ⟨hmap, hrr⟩ := broadcastLoop_ids message
    (st.agents.filter fun a => !exclude.contains a && a != message.sender) st
  constructor
  · intro c hc
    have hrrc := hrr c hc
    refine ⟨hrrc, ?_, ?_⟩
    · have hmem : c.message_id ∈
          (broadcastLoop message
            (st.agents.filter fun a => !exclude.contains a && a != message.sender)
            st).2.2.map Message.message_id :=
        List.mem_map_of_mem Message.message_id hc
      rw [hmap] at hmem
      obtain ⟨i, _, hi⟩ := List.mem_map.1 hmem
      exact hi ▸ hne (st.uuid_next + i)
    · intro st'
      simp [deliverFulfils, hrrc]
  · unfold broadcast_message
    rw [hmap]
    refine List.Nodup.map ?_ (List.nodup_range _)
    intro a b hab
    have := hinj hab
    omega

/-- Witness for C9 with the injective supply `wSeq` and original id `a`:
the two copies broadcast to `r1` and `r2` carry distinct fresh ids. -/
theorem broadcast_copies_fresh_witness :
    ((broadcast_message broadcastBus origMsg []).2.2.map
      Message.message_id).Nodup := by
  have hinj : Function.Injective broadcastBus.uuid_seq := by
    intro a b h
    have h2 := congrArg (fun s : String => s.data.length) h
    simp [broadcastBus, wSeq] at h2
    exact h2
  have hne : ∀ n, broadcastBus.uuid_seq n ≠ origMsg.message_id := by
    intro n h
    have h2 := congrArg String.data h
    simp [broadcastBus, origMsg, wSeq, List.replicate_succ] at h2
  exact (broadcast_copies_fresh broadcastBus origMsg [] hinj hne).2

/-! ## C8 — Task round-trip through the task-request wire form -/

theorem toNat_digitChar (d : Nat) (h : d < 10) : (digitChar d).toNat = d + 48 := by
  interval_cases d <;> decide

theorem isDigitCh_digitChar (d : Nat) (h : d < 10) :
    isDigitCh (digitChar d) = true := by
  interval_cases d <;> decide

theorem d2n_digitChar (d : Nat) (h : d < 10) : d2n (digitChar d) = d := by
  simp [d2n, toNat_digitChar d h]

theorem readDigits_chars2 (a n : Nat) (h : n < 100) (rest : List Char) :
    readDigits 2 a (chars2 n ++ rest) = some (a * 100 + n, rest) := by
  have h1 : n / 10 < 10 := by omega
  have h2 : n % 10 < 10 := by omega
  simp [chars2, readDigits, isDigitCh_digitChar _ h1, isDigitCh_digitChar _ h2,
    d2n_digitChar _ h1, d2n_digitChar _ h2]
  omega

theorem readDigits_chars4 (a n : Nat) (h : n < 10000) (rest : List Char) :
    readDigits 4 a (chars4 n ++ rest) = some (a * 10000 + n, rest) := by
  have h1 : n / 1000 < 10 := by omega
  have h2 : n / 100 % 10 < 10 := by omega
  have h3 : n / 10 % 10 < 10 := by omega
  have h4 : n % 10 < 10 := by omega
  simp [chars4, readDigits, isDigitCh_digitChar _ h1, isDigitCh_digitChar _ h2,
    isDigitCh_digitChar _ h3, isDigitCh_digitChar _ h4,
    d2n_digitChar _ h1, d2n_digitChar _ h2, d2n_digitChar _ h3,
    d2n_digitChar _ h4]
  omega

theorem readDigits_chars6 (a n : Nat) (h : n < 1000000) (rest : List Char) :
    readDigits 6 a (chars6 n ++ rest) = some (a * 1000000 + n, rest) := by
  have h1 : n / 100000 < 10 := by omega
  have h2 : n / 10000 % 10 < 10 := by omega
  have h3 : n / 1000 % 10 < 10 := by omega
  have h4 : n / 100 % 10 < 10 := by omega
  have h5 : n / 10 % 10 < 10 := by omega
  have h6 : n % 10 < 10 := by omega
  simp [chars6, readDigits, isDigitCh_digitChar _ h1, isDigitCh_digitChar _ h2,
    isDigitCh_digitChar _ h3, isDigitCh_digitChar _ h4,
    isDigitCh_digitChar _ h5, isDigitCh_digitChar _ h6,
    d2n_digitChar _ h1, d2n_digitChar _ h2, d2n_digitChar _ h3,
    d2n_digitChar _ h4, d2n_digitChar _ h5, d2n_digitChar _ h6]
  omega

theorem expectSep_cons (c : Char) (rest : List Char) :
    expectSep c (c :: rest) = some rest := by
  simp [expectSep]

/-- `fromisoformat` inverts `isoformat` on every datetime the `datetime`
constructor accepts. -/
theorem fromisoformat_isoformat (d : PyDateTime) (h : d.valid) :
    fromisoformat d.isoformat = some d := by
  obtain ⟨h1, h2, h3, h4, h5, h6, h7, h8, h9, h10⟩ := h
  rcases d with ⟨y, mo, da, hh, mi, s, us⟩
  simp only at h1 h2 h3 h4 h5 h6 h7 h8 h9 h10
  simp only [PyDateTime.isoformat, fromisoformat]
  rw [readDigits_chars4 0 y (by omega)]
  simp only [Bind.bind, Option.bind, Nat.zero_mul, Nat.zero_add]
  rw [expectSep_cons]
  simp only [Bind.bind, Option.bind]
  rw [readDigits_chars2 0 mo (by omega)]
  simp only [Bind.bind, Option.bind, Nat.zero_mul, Nat.zero_add]
  rw [expectSep_cons]
  simp only [Bind.bind, Option.bind]
  rw [readDigits_chars2 0 da (by omega)]
  simp only [Bind.bind, Option.bind, Nat.zero_mul, Nat.zero_add]
  rw [expectSep_cons]
  simp only [Bind.bind, Option.bind]
  rw [readDigits_chars2 0 hh (by omega)]
  simp only [Bind.bind, Option.bind, Nat.zero_mul, Nat.zero_add]
  rw [expectSep_cons]
  simp only [Bind.bind, Option.bind]
  rw [readDigits_chars2 0 mi (by omega)]
  simp only [Bind.bind, Option.bind, Nat.zero_mul, Nat.zero_add]
  rw [expectSep_cons]
  simp only [Bind.bind, Option.bind]
  by_cases hus : us = 0
  · subst hus
    rw [if_pos rfl, readDigits_chars2 0 s (by omega)]
    simp only [Bind.bind, Option.bind, Nat.zero_mul, Nat.zero_add]
  · rw [if_neg hus, readDigits_chars2 0 s (by omega)]
    simp only [Bind.bind, Option.bind, Nat.zero_mul, Nat.zero_add]
    have hr6 : readDigits 6 0 (chars6 us) = some (us, []) := by
      simpa using readDigits_chars6 0 us (by omega) []
    rw [hr6]

theorem taskPriority_ofValue_value (p : TaskPriority) :
    TaskPriority.ofValue p.value = some p := by
  cases p <;> rfl

theorem agentRole_ofValue_value (r : AgentRole) :
    AgentRole.ofValue r.value = some r := by
  cases r <;> rfl

theorem AgentRole.value_data_ne_nil (r : AgentRole) :
    r.value.data.isEmpty = false := by
  cases r <;> rfl

theorem mapM_loop_asStr_map (l : List String) (acc : List String) :
    List.mapM.loop asStr (l.map Json.str) acc = some (acc.reverse ++ l) := by
  induction l generalizing acc with
  | nil => simp [List.mapM.loop]
  | cons x xs ih => simp [List.mapM.loop, asStr, ih]

theorem asStrList_map_str (l : List String) :
    asStrList (.arr (l.map .str)) = some l := by
  simp [asStrList, List.mapM, mapM_loop_asStr_map]

/-- `String.mk` then `.data` is the identity (used to push the serialised
iso string back into the parser). -/
theorem data_mk (l : List Char) : (String.mk l).data = l := rfl

/-- An isoformat rendering is never the empty list. -/
theorem isoformat_isEmpty (d : PyDateTime) : d.isoformat.isEmpty = false := by
  simp [PyDateTime.isoformat, chars4]

set_option maxHeartbeats 1000000 in

/-- Claim C8: serialising a `Task` with `create_task_request` and parsing
the message back with `extract_task_from_message` returns the same task --
same id, title, description, requirements, priority, role, dependencies,
metadata, context and timestamps -- for every task whose datetimes satisfy
the `datetime` field bounds. -/
theorem task_request_roundtrip (sender recipient : String) (task : Task)
    (priority : TaskPriority) (correlation_id : Option String)
    (fresh_id : String) (now : Nat)
    (hca : task.created_at.valid)
    (hdl : ∀ dl, task.deadline = some dl → dl.valid) :
    extract_task_from_message
      (create_task_request sender recipient task priority correlation_id
        fresh_id now) = some task := by
  rcases task with ⟨tid, title, descr, reqs, prio, role, deps, meta, ca, dl, ctx⟩
  simp only at hca hdl
  rcases dl with _ | dl
  · rcases role with _ | role <;>
    · simp only [create_task_request, extract_task_from_message, jLookup,
        String.reduceEq, reduceIte, reduceCtorEq, ne_eq, asObj, asStr,
        Option.getD_some, Option.getD_none, Bind.bind, Option.bind, pyTruthy,
        Bool.not_false, Bool.false_eq_true, data_mk,
        fromisoformat_isoformat ca hca, asStrList_map_str,
        taskPriority_ofValue_value, agentRole_ofValue_value,
        AgentRole.value_data_ne_nil]
      simp
  · have hdlv : fromisoformat dl.isoformat = some dl :=
      fromisoformat_isoformat dl (hdl dl rfl)
    rcases role with _ | role <;>
    · simp only [create_task_request, extract_task_from_message, jLookup,
        String.reduceEq, reduceIte, reduceCtorEq, ne_eq, asObj, asStr,
        Option.getD_some, Option.getD_none, Bind.bind, Option.bind, pyTruthy,
        Bool.not_false, Bool.false_eq_true, data_mk, hdlv,
        fromisoformat_isoformat ca hca, asStrList_map_str,
        taskPriority_ofValue_value, agentRole_ofValue_value,
        AgentRole.value_data_ne_nil, isoformat_isEmpty]
      simp

/-- Witness for C8 at a concrete fully-populated task. -/
theorem task_request_roundtrip_witness :
    extract_task_from_message
      (create_task_request "s" "r"
        { task_id := "t-1", title := "Ti", description := "De",
          requirements := ["r1", "r2"], priority := .high,
          required_agent_role := some .domain_advisor,
          dependencies := ["d1"], metadata := [("k", Json.str "v")],
          created_at := ⟨2024, 3, 7, 15, 4, 5, 123456⟩,
          deadline := some ⟨2024, 12, 31, 0, 0, 0, 0⟩,
          context := [("c", Json.num "1")] } .medium none "" 0) =
      some
        { task_id := "t-1", title := "Ti", description := "De",
          requirements := ["r1", "r2"], priority := .high,
          required_agent_role := some .domain_advisor,
          dependencies := ["d1"], metadata := [("k", Json.str "v")],
          created_at := ⟨2024, 3, 7, 15, 4, 5, 123456⟩,
          deadline := some ⟨2024, 12, 31, 0, 0, 0, 0⟩,
          context := [("c", Json.num "1")] } :=
  task_request_roundtrip "s" "r" _ .medium none "" 0 (by decide)
    (fun dl hdl => by
      simp only [Option.some.injEq] at hdl
      rw [← hdl]; decide)

end MultiAgent
